import Mathlib

set_option maxHeartbeats 1000000

/-!
Shallow embedding of the express-locallibrary-tutorial controllers.

The four entity collections (Author, Genre, Book, BookInstance) are modelled
as lists of records inside a `Store`; Mongo ObjectIds are modelled as opaque
`String` identifiers compared by value (Mongoose array `indexOf` compares
ObjectIds by value).  Each Express handler becomes a function from its request
fields, a database-failure flag (`Option Err`, the first error reported by an
`exec`/`async.parallel`/write call: `async.parallel` fails fast with the first
error) and the current `Store` to the ordered list of responses the handler
attempts to commit plus the resulting `Store`.  Express commits only the first
response written to `res` (later `res.render`/`res.redirect` calls fail with
"headers already sent" without reaching the client), so the observable
response of a handler is the head of its response list.

Sanitizers from the external `validator` library (`trim`, `escape`,
`isAlphanumeric`, `isISO8601`) are collaborators of the repository; they are
modelled here by simple executable approximations of their documented
behaviour (ASCII alphanumerics, `YYYY-MM-DD` ISO dates, HTML entity escaping).
-/

/-- An error value as passed to `next(err)`: message plus optional HTTP
status (`err.status`), as consumed by the app-level error middleware. -/
structure Err where
  msg : String
  status : Option Nat
deriving DecidableEq

/-- A field-level validation error as produced by express-validator:
the originating field name (`param`) and the human-readable message. -/
structure FieldError where
  param : String
  msg : String
deriving DecidableEq

/-- Author document (models/author.js): required names, optional dates. -/
structure Author where
  id : String
  first_name : String
  family_name : String
  date_of_birth : Option String
  date_of_death : Option String
deriving DecidableEq

/-- Genre document (models/genre.js is not under src/, but its shape — an
identifier and a required `name` — is fixed by the controllers and spec). -/
structure Genre where
  id : String
  name : String
deriving DecidableEq

/-- Book document (models/book.js): references one Author id and a list of
Genre ids. -/
structure Book where
  id : String
  title : String
  author : String
  summary : String
  isbn : String
  genre : List String
deriving DecidableEq

/-- BookInstance document (models/bookinstance.js): references one Book id. -/
structure BookInstance where
  id : String
  book : String
  imprint : String
  status : String
  due_back : Option String
deriving DecidableEq

/-- The Entity Store: one document collection per entity. -/
structure Store where
  authors : List Author
  books : List Book
  genres : List Genre
  instances : List BookInstance
deriving DecidableEq

/-- Virtual `url` of an Author document. -/
def Author.url (a : Author) : String := "/catalog/author/" ++ a.id

/-- Virtual `url` of a Genre document. -/
def Genre.url (g : Genre) : String := "/catalog/genre/" ++ g.id

/-- Virtual `url` of a Book document. -/
def Book.url (b : Book) : String := "/catalog/book/" ++ b.id

/-- Virtual `url` of a BookInstance document. -/
def BookInstance.url (b : BookInstance) : String := "/catalog/bookinstance/" ++ b.id

/-- HTML-escaping of one character, as done by validator's `escape()`. -/
def escapeHtmlChar (c : Char) : String :=
  if c = Char.ofNat 38 then "&amp;"
  else if c = Char.ofNat 60 then "&lt;"
  else if c = Char.ofNat 62 then "&gt;"
  else if c = Char.ofNat 34 then "&quot;"
  else if c = Char.ofNat 39 then "&#x27;"
  else if c = Char.ofNat 47 then "&#x2F;"
  else String.singleton c

/-- validator's `escape()` sanitizer: escape HTML-significant characters. -/
def escapeHtml (s : String) : String :=
  String.join (s.toList.map escapeHtmlChar)

/-- validator's `trim()` sanitizer: drop leading and trailing whitespace. -/
def trimStr (s : String) : String :=
  String.mk (((s.toList.dropWhile Char.isWhitespace).reverse.dropWhile
    Char.isWhitespace).reverse)

/-- validator's `isAlphanumeric()`: at least one character, all ASCII
alphanumeric (the empty string is rejected). -/
def isAlphanumericStr (s : String) : Bool :=
  !s.isEmpty && s.toList.all Char.isAlphanum

/-- Four-digit-year `YYYY-MM-DD` approximation of validator's `isISO8601()`
date check (the exact date grammar of the external library is irrelevant to
the controllers' branching, which only consumes the pass/fail verdict). -/
def isISO8601 (s : String) : Bool :=
  match s.splitOn "-" with
  | [y, m, d] =>
      y.length = 4 && y.toList.all Char.isDigit &&
      m.length = 2 && m.toList.all Char.isDigit &&
      d.length = 2 && d.toList.all Char.isDigit
  | _ => false

/-- One Author name chain:
`body(field).trim().isLength(min 1).escape().withMessage(emptyMsg)
.isAlphanumeric().withMessage(alphaMsg)`.
`withMessage` attaches to the closest preceding validator, so `emptyMsg` tags
the `isLength` check (run on the trimmed value) and `alphaMsg` tags the
`isAlphanumeric` check (run on the escaped value).  Both checks run even if
the first fails, so both errors can surface together.
Returns the sanitized value and the errors in chain order. -/
def validateNameField (field emptyMsg alphaMsg : String) (v : String) :
    String × List FieldError :=
  let t := trimStr v
  let lenErrs : List FieldError :=
    if 1 ≤ t.length then [] else [⟨field, emptyMsg⟩]
  let e := escapeHtml t
  let alphaErrs : List FieldError :=
    if isAlphanumericStr e then [] else [⟨field, alphaMsg⟩]
  (e, lenErrs ++ alphaErrs)

/-- A `body(field, msg).optional(checkFalsy true).isISO8601().toDate()` chain:
an absent or falsy (empty) value passes with no error and an absent sanitized
value (Mongoose likewise treats an empty string as an unset Date); a present
value must look like an ISO-8601 date or the chain records `msg`. -/
def validateOptionalDate (field msg : String) (v : Option String) :
    Option String × List FieldError :=
  match v with
  | none => (none, [])
  | some s =>
      if s.isEmpty then (none, [])
      else if isISO8601 s then (some s, [])
      else (some s, [⟨field, msg⟩])

/-- A `body(field, msg).trim().isLength(min 1).escape()` chain (Book and
BookInstance required fields): the length check runs on the trimmed value,
the sanitized value is the escaped trimmed value. -/
def validateRequiredField (field msg : String) (v : String) :
    String × List FieldError :=
  let t := trimStr v
  (escapeHtml t, if 1 ≤ t.length then [] else [⟨field, msg⟩])

/-- A `body('name', msg).trim().isLength(min minLen).escape()` chain, as used
by the Genre create (minLen 1) and update (minLen 3) POST handlers. -/
def validateGenreName (minLen : Nat) (msg : String) (v : String) :
    String × List FieldError :=
  let t := trimStr v
  (escapeHtml t, if minLen ≤ t.length then [] else [⟨"name", msg⟩])

/-- Raw Author create/update form body. -/
structure AuthorForm where
  first_name : String
  family_name : String
  date_of_birth : Option String
  date_of_death : Option String
deriving DecidableEq

/-- The full Author validation/sanitization pipeline of
`author_create_post` / `author_update_post` (both use identical chains):
first_name, family_name, date_of_birth, date_of_death, in that middleware
order, errors concatenated in chain order. -/
def validateAuthorForm (f : AuthorForm) : AuthorForm × List FieldError :=
  let fn := validateNameField "first_name" "First name must be specified."
    "First name has non-alphanumeric characters." f.first_name
  let ln := validateNameField "family_name" "Family name must be specified."
    "Family name has non-alphanumeric characters." f.family_name
  let db := validateOptionalDate "date_of_birth" "Invalid date of birth" f.date_of_birth
  let dd := validateOptionalDate "date_of_death" "Invalid date of death" f.date_of_death
  (⟨fn.1, ln.1, db.1, dd.1⟩, fn.2 ++ ln.2 ++ db.2 ++ dd.2)

/-- The raw `req.body.genre` value of a Book form before the array-conversion
middleware: the multi-select control posts nothing, one string, or an array. -/
inductive RawGenre where
  | absent : RawGenre
  | scalar (s : String) : RawGenre
  | arr (xs : List String) : RawGenre
deriving DecidableEq

/-- The first middleware of `book_create_post` / `book_update_post`:
`if (!(genre instanceof Array)) { if (undefined) genre = []; else genre = new Array(genre) }`. -/
def normalizeGenre : RawGenre → List String
  | RawGenre.absent => []
  | RawGenre.scalar s => [s]
  | RawGenre.arr xs => xs

/-- Raw Book create/update form body. -/
structure BookForm where
  title : String
  author : String
  summary : String
  isbn : String
  genre : RawGenre
deriving DecidableEq

/-- Sanitized Book form fields. -/
structure BookFields where
  title : String
  author : String
  summary : String
  isbn : String
  genre : List String
deriving DecidableEq

/-- The Book validation/sanitization pipeline shared by `book_create_post`
and `book_update_post`: the genre array-conversion middleware, then the
required-field chains for title/author/summary/isbn, then
`body('genre.*').escape()` element-wise. -/
def validateBookFields (f : BookForm) : BookFields × List FieldError :=
  let g := normalizeGenre f.genre
  let t := validateRequiredField "title" "Title must not be empty." f.title
  let a := validateRequiredField "author" "Author must not be empty." f.author
  let s := validateRequiredField "summary" "Summary must not be empty." f.summary
  let i := validateRequiredField "isbn" "ISBN must not be empty" f.isbn
  (⟨t.1, a.1, s.1, i.1, g.map escapeHtml⟩, t.2 ++ a.2 ++ s.2 ++ i.2)

/-- Raw BookInstance create/update form body. -/
structure BookInstanceForm where
  book : String
  imprint : String
  status : String
  due_back : Option String
deriving DecidableEq

/-- The BookInstance validation pipeline shared by
`bookinstance_create_post` and `bookinstance_update_post`. -/
def validateBookInstanceForm (f : BookInstanceForm) :
    BookInstanceForm × List FieldError :=
  let b := validateRequiredField "book" "Book must be specified" f.book
  let i := validateRequiredField "imprint" "Imprint must be specified" f.imprint
  let st := escapeHtml f.status
  let d := validateOptionalDate "due_back" "Invalid date" f.due_back
  (⟨b.1, i.1, st, d.1⟩, b.2 ++ i.2 ++ d.2)

/-- Render payload for `author_form`: the create POST re-renders with
`author: req.body` (no id), the update POST with the candidate document
carrying the URL id (and the GETs with a stored document). -/
structure AuthorPayload where
  first_name : String
  family_name : String
  date_of_birth : Option String
  date_of_death : Option String
  id : Option String
deriving DecidableEq

/-- Render payload for `book_form`: the candidate Book; `id` is present only
on the update path (`_id: req.params.id`). -/
structure BookPayload where
  title : String
  author : String
  summary : String
  isbn : String
  genre : List String
  id : Option String
deriving DecidableEq

/-- Home-page counts computed by the `index` controller's five
`countDocuments` queries. -/
structure Counts where
  book_count : Nat
  book_instance_count : Nat
  book_instance_available_count : Nat
  author_count : Nat
  genre_count : Nat
deriving DecidableEq

/-- One response a handler attempts to commit: a redirect, a `next(err)`
forward to the error boundary, an uncaught exception escaping the handler,
or a render of a specific view with the exact variables the code passes.
A fetched Genre in a `book_form` render is paired with its `checked` flag
(the loop sets `checked` to true for candidate-selected genres; an untouched
document has no `checked` attribute, which the template reads as false). -/
inductive Resp where
  | redirect (path : String) : Resp
  | nextErr (e : Err) : Resp
  | thrown (msg : String) : Resp
  | renderIndex (title : String) (error : Option Err) (data : Option Counts) : Resp
  | renderBookList (title : String) (book_list : List Book) : Resp
  | renderAuthorForm (title : String) (author : Option AuthorPayload)
      (errors : List FieldError) : Resp
  | renderAuthorDelete (title : String) (author : Option Author)
      (author_books : List Book) : Resp
  | renderGenreForm (title : String) (genre : Option Genre)
      (errors : List FieldError) : Resp
  | renderGenreDelete (title : String) (genre : Option Genre)
      (genre_books : List Book) : Resp
  | renderBookForm (title : String) (authors : List Author)
      (genres : List (Genre × Bool)) (book : Option BookPayload)
      (errors : List FieldError) : Resp
  | renderBookDelete (title : String) (book : Option Book)
      (book_instances : List BookInstance) : Resp
  | renderBookInstanceForm (title : String) (book_list : List Book)
      (selected_book : Option String) (inst : Option BookInstance)
      (errors : List FieldError) : Resp
deriving DecidableEq

/-- `Author.findById(id)`. -/
def findAuthorById (s : Store) (i : String) : Option Author :=
  s.authors.find? (fun a => a.id == i)

/-- `Genre.findById(id)`. -/
def findGenreById (s : Store) (i : String) : Option Genre :=
  s.genres.find? (fun g => g.id == i)

/-- `Book.findById(id)`. -/
def findBookById (s : Store) (i : String) : Option Book :=
  s.books.find? (fun b => b.id == i)

/-- `BookInstance.findById(id)`. -/
def findInstanceById (s : Store) (i : String) : Option BookInstance :=
  s.instances.find? (fun b => b.id == i)

/-- `Book.find({ author: id })`. -/
def booksByAuthor (s : Store) (i : String) : List Book :=
  s.books.filter (fun b => b.author == i)

/-- `Book.find({ genre: id })`: Mongo matches an array field when it
contains the queried value. -/
def booksByGenre (s : Store) (i : String) : List Book :=
  s.books.filter (fun b => b.genre.contains i)

/-- `BookInstance.find({ book: id })`. -/
def instancesByBook (s : Store) (i : String) : List BookInstance :=
  s.instances.filter (fun b => b.book == i)

/-- `Genre.findOne({ name: n })`. -/
def findGenreByName (s : Store) (n : String) : Option Genre :=
  s.genres.find? (fun g => g.name == n)

/-- `Author.findByIdAndRemove(id)`: removes the matching document if any;
a no-op (and no error) when the id does not resolve. -/
def removeAuthor (s : Store) (i : String) : Store :=
  { s with authors := s.authors.filter (fun a => a.id != i) }

/-- `Genre.findByIdAndRemove(id)`. -/
def removeGenre (s : Store) (i : String) : Store :=
  { s with genres := s.genres.filter (fun g => g.id != i) }

/-- `Book.findByIdAndRemove(id)`. -/
def removeBook (s : Store) (i : String) : Store :=
  { s with books := s.books.filter (fun b => b.id != i) }

/-- `BookInstance.findByIdAndRemove(id)`. -/
def removeInstance (s : Store) (i : String) : Store :=
  { s with instances := s.instances.filter (fun b => b.id != i) }

/-- `Author.findByIdAndUpdate(id, doc, {})`: replaces the matching
document's fields in place (`_id` is immutable, and the handlers set the
candidate's `_id` to the same id anyway) and yields the pre-update document
(no `new: true` option is passed); `(none, s)` when the id does not resolve. -/
def updateAuthorById (s : Store) (i : String) (a : Author) : Option Author × Store :=
  match s.authors.find? (fun x => x.id == i) with
  | none => (none, s)
  | some old =>
      (some old,
       { s with authors := s.authors.map (fun x => if x.id == i then a else x) })

/-- `Genre.findByIdAndUpdate(id, doc, {})`. -/
def updateGenreById (s : Store) (i : String) (g : Genre) : Option Genre × Store :=
  match s.genres.find? (fun x => x.id == i) with
  | none => (none, s)
  | some old =>
      (some old,
       { s with genres := s.genres.map (fun x => if x.id == i then g else x) })

/-- `Book.findByIdAndUpdate(id, doc, {})`. -/
def updateBookById (s : Store) (i : String) (b : Book) : Option Book × Store :=
  match s.books.find? (fun x => x.id == i) with
  | none => (none, s)
  | some old =>
      (some old,
       { s with books := s.books.map (fun x => if x.id == i then b else x) })

/-- `BookInstance.findByIdAndUpdate(id, doc, {})`. -/
def updateInstanceById (s : Store) (i : String) (b : BookInstance) :
    Option BookInstance × Store :=
  match s.instances.find? (fun x => x.id == i) with
  | none => (none, s)
  | some old =>
      (some old,
       { s with instances := s.instances.map (fun x => if x.id == i then b else x) })

/-- `countDocuments` aggregation of the `index` controller. -/
def storeCounts (s : Store) : Counts :=
  ⟨s.books.length, s.instances.length,
   (s.instances.filter (fun b => b.status == "Available")).length,
   s.authors.length, s.genres.length⟩

/-- The sanitized `req.body` that `author_create_post` passes back to the
form on validation failure (`author: req.body` — no `_id` field). -/
def authorCreateBody (f : AuthorForm) : AuthorPayload :=
  let v := (validateAuthorForm f).1
  ⟨v.first_name, v.family_name, v.date_of_birth, v.date_of_death, none⟩

/-- The candidate document `new Author({...})` built by `author_create_post`
from the sanitized body; `newId` is the ObjectId Mongoose allocates at
construction. -/
def authorCreateCandidate (newId : String) (f : AuthorForm) : Author :=
  let v := (validateAuthorForm f).1
  ⟨newId, v.first_name, v.family_name, v.date_of_birth, v.date_of_death⟩

/-- The candidate `new Author({..., _id: req.params.id})` built by
`author_update_post`. -/
def authorUpdateCandidate (paramsId : String) (f : AuthorForm) : Author :=
  let v := (validateAuthorForm f).1
  ⟨paramsId, v.first_name, v.family_name, v.date_of_birth, v.date_of_death⟩

/-- The candidate `new Book({...})` built by `book_create_post`. -/
def bookCreateCandidate (newId : String) (f : BookForm) : Book :=
  let v := (validateBookFields f).1
  ⟨newId, v.title, v.author, v.summary, v.isbn, v.genre⟩

/-- The candidate `new Book({..., _id: req.params.id})` built by
`book_update_post` (its `genre` ternary on `undefined` is a no-op because
the array-conversion middleware has already run). -/
def bookUpdateCandidate (paramsId : String) (f : BookForm) : Book :=
  let v := (validateBookFields f).1
  ⟨paramsId, v.title, v.author, v.summary, v.isbn, v.genre⟩

/-- The candidate `new BookInstance({..., _id: req.params.id})` built by
`bookinstance_update_post`. -/
def instanceUpdateCandidate (paramsId : String) (f : BookInstanceForm) :
    BookInstance :=
  let v := (validateBookInstanceForm f).1
  ⟨paramsId, v.book, v.imprint, v.status, v.due_back⟩

/-- The checked-marking loop of the book POST handlers: for each fetched
genre, `checked` becomes true exactly when `book.genre.indexOf(_id) > -1`
(Mongoose array `indexOf`, comparing ObjectIds by value). -/
def markChecked (genres : List Genre) (sel : List String) : List (Genre × Bool) :=
  genres.map (fun g => (g, sel.contains g.id))

/-- The `index` controller: the `async.parallel` callback performs no error
check — it always renders the `index` view, passing the error (if any) and
the counts (undefined on failure) as template variables. -/
def index (dbErr : Option Err) (s : Store) : List Resp :=
  match dbErr with
  | some e => [Resp.renderIndex "Local Library Home" (some e) none]
  | none => [Resp.renderIndex "Local Library Home" none (some (storeCounts s))]

/-- The `book_list` controller: its function signature is `(req, res)`, so
the `next(err)` in its error branch references an identifier that is not in
scope and throws a ReferenceError instead of reaching the error boundary.
(The title/author field selection of the query is not modelled; whole
documents are rendered.) -/
def book_list (dbErr : Option Err) (s : Store) : List Resp :=
  match dbErr with
  | some _ => [Resp.thrown "ReferenceError: next is not defined"]
  | none =>
      [Resp.renderBookList "Book List"
        (s.books.mergeSort (fun a b => decide (a.title ≤ b.title)))]

/-- `author_delete_get`: on a missing author it calls `res.redirect` without
returning, then falls through to `res.render`; both attempted responses are
recorded in order (Express commits only the first). -/
def author_delete_get (paramsId : String) (dbErr : Option Err) (s : Store) :
    List Resp :=
  match dbErr with
  | some e => [Resp.nextErr e]
  | none =>
      let author := findAuthorById s paramsId
      let authors_books := booksByAuthor s paramsId
      (if author = none then [Resp.redirect "/catalog/authors"] else []) ++
        [Resp.renderAuthorDelete "Delete Author" author authors_books]

/-- `author_delete_post`: both the lookups and the removal use
`req.body.authorid`. -/
def author_delete_post (authorid : String) (dbErr : Option Err) (s : Store) :
    List Resp × Store :=
  match dbErr with
  | some e => ([Resp.nextErr e], s)
  | none =>
      let author := findAuthorById s authorid
      let authors_books := booksByAuthor s authorid
      if 0 < authors_books.length then
        ([Resp.renderAuthorDelete "Delete Author" author authors_books], s)
      else
        ([Resp.redirect "/catalog/authors"], removeAuthor s authorid)

/-- `genre_delete_get`: same missing-`return` fall-through as
`author_delete_get`. -/
def genre_delete_get (paramsId : String) (dbErr : Option Err) (s : Store) :
    List Resp :=
  match dbErr with
  | some e => [Resp.nextErr e]
  | none =>
      let genre := findGenreById s paramsId
      let genre_books := booksByGenre s paramsId
      (if genre = none then [Resp.redirect "/catalog/genres"] else []) ++
        [Resp.renderGenreDelete "Delete Genre" genre genre_books]

/-- `genre_delete_post`: the genre and its dependent books are looked up by
`req.params.id`, but the removal targets `req.body.id`. -/
def genre_delete_post (paramsId bodyId : String) (dbErr : Option Err)
    (s : Store) : List Resp × Store :=
  match dbErr with
  | some e => ([Resp.nextErr e], s)
  | none =>
      let genre := findGenreById s paramsId
      let genre_books := booksByGenre s paramsId
      if 0 < genre_books.length then
        ([Resp.renderGenreDelete "Delete Genre" genre genre_books], s)
      else
        ([Resp.redirect "/catalog/genres"], removeGenre s bodyId)

/-- `book_delete_get`: same missing-`return` fall-through as
`author_delete_get`. -/
def book_delete_get (paramsId : String) (dbErr : Option Err) (s : Store) :
    List Resp :=
  match dbErr with
  | some e => [Resp.nextErr e]
  | none =>
      let book := findBookById s paramsId
      let book_bookinstances := instancesByBook s paramsId
      (if book = none then [Resp.redirect "/catalog/books"] else []) ++
        [Resp.renderBookDelete "Delete Book" book book_bookinstances]

/-- `book_delete_post`: lookups and removal both use `req.body.id`. -/
def book_delete_post (bodyId : String) (dbErr : Option Err) (s : Store) :
    List Resp × Store :=
  match dbErr with
  | some e => ([Resp.nextErr e], s)
  | none =>
      let book := findBookById s bodyId
      let book_bookinstances := instancesByBook s bodyId
      if 0 < book_bookinstances.length then
        ([Resp.renderBookDelete "Delete Book" book book_bookinstances], s)
      else
        ([Resp.redirect "/catalog/books"], removeBook s bodyId)

/-- `author_create_post`: on validation failure re-render with
`author: req.body` and the error array (no store access); on success save
the candidate and redirect to its url. -/
def author_create_post (f : AuthorForm) (newId : String) (dbErr : Option Err)
    (s : Store) : List Resp × Store :=
  let errors := (validateAuthorForm f).2
  if !errors.isEmpty then
    ([Resp.renderAuthorForm "Create Author" (some (authorCreateBody f)) errors], s)
  else
    let author := authorCreateCandidate newId f
    match dbErr with
    | some e => ([Resp.nextErr e], s)
    | none =>
        ([Resp.redirect author.url], { s with authors := s.authors ++ [author] })

/-- `author_update_post`: the candidate keeps the URL id; on success
`findByIdAndUpdate` yields the pre-update document (whose `url` has the same
id) for the redirect; a vanished id makes `theauthor.url` throw. -/
def author_update_post (paramsId : String) (f : AuthorForm) (dbErr : Option Err)
    (s : Store) : List Resp × Store :=
  let errors := (validateAuthorForm f).2
  let author := authorUpdateCandidate paramsId f
  if !errors.isEmpty then
    ([Resp.renderAuthorForm "Update Author"
        (some ⟨author.first_name, author.family_name, author.date_of_birth,
               author.date_of_death, some paramsId⟩) errors], s)
  else
    match dbErr with
    | some e => ([Resp.nextErr e], s)
    | none =>
        match updateAuthorById s paramsId author with
        | (some theauthor, s2) => ([Resp.redirect theauthor.url], s2)
        | (none, s2) => ([Resp.thrown "TypeError: theauthor is null"], s2)

/-- `genre_create_post`: validate the name (min length 1); on failure
re-render the form; on success `findOne` the (sanitized) name — redirect to
the existing genre if found, otherwise save and redirect to the new genre. -/
def genre_create_post (nameRaw : String) (newId : String) (dbErr : Option Err)
    (s : Store) : List Resp × Store :=
  let v := validateGenreName 1 "Genre name required" nameRaw
  let genre : Genre := ⟨newId, v.1⟩
  if !v.2.isEmpty then
    ([Resp.renderGenreForm "Create Genre" (some genre) v.2], s)
  else
    match dbErr with
    | some e => ([Resp.nextErr e], s)
    | none =>
        match findGenreByName s v.1 with
        | some found_genre => ([Resp.redirect found_genre.url], s)
        | none =>
            ([Resp.redirect genre.url], { s with genres := s.genres ++ [genre] })

/-- `genre_update_post`: validate the name (min length 3); the candidate
keeps the URL id; on success update in place and redirect. -/
def genre_update_post (paramsId : String) (nameRaw : String) (dbErr : Option Err)
    (s : Store) : List Resp × Store :=
  let v := validateGenreName 3 "Genre name must contain at least 3 characters" nameRaw
  let genre : Genre := ⟨paramsId, v.1⟩
  if !v.2.isEmpty then
    ([Resp.renderGenreForm "Update Genre" (some genre) v.2], s)
  else
    match dbErr with
    | some e => ([Resp.nextErr e], s)
    | none =>
        match updateGenreById s paramsId genre with
        | (some thegenre, s2) => ([Resp.redirect thegenre.url], s2)
        | (none, s2) => ([Resp.thrown "TypeError: thegenre is null"], s2)

/-- `book_create_post`: on validation failure re-fetch all authors and
genres, mark the candidate-selected genres checked, re-render; on success
save and redirect. -/
def book_create_post (f : BookForm) (newId : String) (dbErr : Option Err)
    (s : Store) : List Resp × Store :=
  let errors := (validateBookFields f).2
  let book := bookCreateCandidate newId f
  if !errors.isEmpty then
    match dbErr with
    | some e => ([Resp.nextErr e], s)
    | none =>
        ([Resp.renderBookForm "Create Book" s.authors
            (markChecked s.genres book.genre)
            (some ⟨book.title, book.author, book.summary, book.isbn, book.genre,
                   some newId⟩) errors], s)
  else
    match dbErr with
    | some e => ([Resp.nextErr e], s)
    | none => ([Resp.redirect book.url], { s with books := s.books ++ [book] })

/-- `book_update_post`: like create but the candidate carries the URL id and
success goes through `findByIdAndUpdate`. -/
def book_update_post (paramsId : String) (f : BookForm) (dbErr : Option Err)
    (s : Store) : List Resp × Store :=
  let errors := (validateBookFields f).2
  let book := bookUpdateCandidate paramsId f
  if !errors.isEmpty then
    match dbErr with
    | some e => ([Resp.nextErr e], s)
    | none =>
        ([Resp.renderBookForm "Update Book" s.authors
            (markChecked s.genres book.genre)
            (some ⟨book.title, book.author, book.summary, book.isbn, book.genre,
                   some paramsId⟩) errors], s)
  else
    match dbErr with
    | some e => ([Resp.nextErr e], s)
    | none =>
        match updateBookById s paramsId book with
        | (some thebook, s2) => ([Resp.redirect thebook.url], s2)
        | (none, s2) => ([Resp.thrown "TypeError: thebook is null"], s2)

/-- `bookinstance_update_post`: the candidate carries the URL id; on
validation failure re-fetch the book list and re-render with the previously
chosen book passed through as `selected_book`. -/
def bookinstance_update_post (paramsId : String) (f : BookInstanceForm)
    (dbErr : Option Err) (s : Store) : List Resp × Store :=
  let errors := (validateBookInstanceForm f).2
  let bookinstance := instanceUpdateCandidate paramsId f
  if !errors.isEmpty then
    match dbErr with
    | some e => ([Resp.nextErr e], s)
    | none =>
        ([Resp.renderBookInstanceForm "Update BookInstance" s.books
            (some bookinstance.book) (some bookinstance) errors], s)
  else
    match dbErr with
    | some e => ([Resp.nextErr e], s)
    | none =>
        match updateInstanceById s paramsId bookinstance with
        | (some thebookinstance, s2) => ([Resp.redirect thebookinstance.url], s2)
        | (none, s2) => ([Resp.thrown "TypeError: thebookinstance is null"], s2)

/-- The candidate `new BookInstance({...})` built by
`bookinstance_create_post` from the sanitized body; `newId` is the ObjectId
Mongoose allocates at construction. -/
def instanceCreateCandidate (newId : String) (f : BookInstanceForm) :
    BookInstance :=
  let v := (validateBookInstanceForm f).1
  ⟨newId, v.book, v.imprint, v.status, v.due_back⟩

/-- `bookinstance_create_post`: on validation failure re-fetch the book
list and re-render with the chosen book passed through as `selected_book`;
on success save the candidate and redirect to its url. -/
def bookinstance_create_post (f : BookInstanceForm) (newId : String)
    (dbErr : Option Err) (s : Store) : List Resp × Store :=
  let errors := (validateBookInstanceForm f).2
  let bookinstance := instanceCreateCandidate newId f
  if !errors.isEmpty then
    match dbErr with
    | some e => ([Resp.nextErr e], s)
    | none =>
        ([Resp.renderBookInstanceForm "Create BookInstance" s.books
            (some bookinstance.book) (some bookinstance) errors], s)
  else
    match dbErr with
    | some e => ([Resp.nextErr e], s)
    | none =>
        ([Resp.redirect bookinstance.url],
         { s with instances := s.instances ++ [bookinstance] })

/-- `bookinstance_delete_post`: no dependents to check — remove
unconditionally and redirect to the list. -/
def bookinstance_delete_post (bodyId : String) (dbErr : Option Err) (s : Store) :
    List Resp × Store :=
  match dbErr with
  | some e => ([Resp.nextErr e], s)
  | none => ([Resp.redirect "/catalog/bookinstances"], removeInstance s bodyId)

/-- What the app-level error page exposes: the HTTP status it is sent with,
the error message put into `res.locals.message`, and whether the full error
object is exposed (`res.locals.error`). -/
structure ErrorPage where
  status : Nat
  message : String
  errorExposed : Bool
deriving DecidableEq

/-- The process-wide error middleware at the end of the app middleware
chain: renders the `error` view with status `err.status || 500`, exposing
the error object itself only when the environment is `development`. -/
def errorBoundary (env : String) (e : Err) : ErrorPage :=
  ⟨e.status.getD 500, e.msg, env == "development"⟩

/-- Concrete error value used by closed instances below. -/
def err0 : Err := ⟨"connection lost", none⟩

/-- Concrete empty store used by closed instances below. -/
def store0 : Store := ⟨[], [], [], []⟩

theorem find?_eq_none_after_remove {α : Type} (idf : α → String) (i : String)
    (l : List α) :
    (l.filter (fun x => idf x != i)).find? (fun x => idf x == i) = none := by
  rw [List.find?_eq_none]
  intro x hx
  have h := (List.mem_filter.mp hx).2
  simp only [bne_iff_ne, ne_eq] at h
  simp [beq_iff_eq, h]

theorem map_replace_preserves_ids {α : Type} (idf : α → String) (i : String)
    (c : α) (hc : idf c = i) (l : List α) :
    (l.map (fun x => if idf x == i then c else x)).map idf = l.map idf := by
  induction l with
  | nil => rfl
  | cons x xs ih =>
      simp only [List.map_cons, ih]
      by_cases hx : (idf x == i) = true
      · have hxi : idf x = i := beq_iff_eq.mp hx
        rw [if_pos hx, hc, hxi]
      · rw [if_neg hx]

theorem find?_after_replace {α : Type} (idf : α → String) (i : String)
    (c : α) (hc : (idf c == i) = true) :
    ∀ (l : List α) (a : α), l.find? (fun x => idf x == i) = some a →
      (l.map (fun x => if idf x == i then c else x)).find?
        (fun x => idf x == i) = some c := by
  intro l
  induction l with
  | nil => intro a ha; simp [List.find?] at ha
  | cons x xs ih =>
      intro a ha
      cases hx : (idf x == i) with
      | true =>
          simp only [List.map_cons, if_pos hx]
          exact List.find?_cons_of_pos _ hc
      | false =>
          simp only [List.find?, hx] at ha
          have hx' : ¬ ((idf x == i) = true) := by simp [hx]
          rw [List.map_cons, if_neg hx']
          simp only [List.find?, hx]
          exact ih a ha

/-- C10: the home-page handler always renders the index view regardless of
whether the aggregated count queries succeed: on failure the error is passed
into the template as a render variable (with no data), on success the counts
are rendered, and in every case the sole attempted response is a render of
the index view — never a `next(err)` forward to the error boundary, so a
store failure on the home page never produces the generic error page. -/
theorem c10_index_always_renders :
  (∀ (e : Err) (s : Store),
     index (some e) s = [Resp.renderIndex "Local Library Home" (some e) none]) ∧
  (∀ s : Store,
     index none s =
       [Resp.renderIndex "Local Library Home" none (some (storeCounts s))]) ∧
  (∀ (dbErr : Option Err) (s : Store), ∃ o d,
     index dbErr s = [Resp.renderIndex "Local Library Home" o d]) := by
  refine ⟨fun e s => rfl, fun s => rfl, fun dbErr s => ?_⟩
  cases dbErr
  · exact ⟨none, some (storeCounts s), rfl⟩
  · exact ⟨_, none, rfl⟩

/-- C8: the Genre name validation threshold differs between flows: the
create POST chain passes exactly when the trimmed name has length ≥ 1 (and a
valid create always responds with a redirect), while the update POST chain
requires trimmed length ≥ 3, so names of trimmed length 1 or 2 fail update
validation and re-render the form with the min-3 error message. -/
theorem c8_genre_name_threshold_asymmetry :
  (∀ v : String,
     (validateGenreName 1 "Genre name required" v).2 = [] ↔
       1 ≤ (trimStr v).length) ∧
  (∀ v : String,
     (validateGenreName 3 "Genre name must contain at least 3 characters" v).2 = []
       ↔ 3 ≤ (trimStr v).length) ∧
  (∀ (v nid : String) (s : Store), 1 ≤ (trimStr v).length →
     ∃ p s2, genre_create_post v nid none s = ([Resp.redirect p], s2)) ∧
  (∀ (pid v : String) (s : Store), (trimStr v).length < 3 →
     genre_update_post pid v none s =
       ([Resp.renderGenreForm "Update Genre" (some ⟨pid, escapeHtml (trimStr v)⟩)
           [⟨"name", "Genre name must contain at least 3 characters"⟩]], s)) := by
  refine ⟨?_, ?_, ?_, ?_⟩
  · intro v
    by_cases h : 1 ≤ (trimStr v).length <;> simp [validateGenreName, h]
  · intro v
    by_cases h : 3 ≤ (trimStr v).length <;> simp [validateGenreName, h]
  · intro v nid s h
    cases hf : findGenreByName s (escapeHtml (trimStr v)) with
    | none =>
        refine ⟨Genre.url ⟨nid, escapeHtml (trimStr v)⟩,
          { s with genres := s.genres ++ [⟨nid, escapeHtml (trimStr v)⟩] }, ?_⟩
        simp [genre_create_post, validateGenreName, h, hf]
    | some g =>
        refine ⟨g.url, s, ?_⟩
        simp [genre_create_post, validateGenreName, h, hf]
  · intro pid v s h
    have h3 : ¬ 3 ≤ (trimStr v).length := by omega
    simp [genre_update_post, validateGenreName, h3]

/-- c8 witness: the name "ab" (trimmed length 2) passes the create-flow
validation (the create handler responds with a redirect) and fails the
update-flow validation, which re-renders with the min-3 message. -/
theorem c8_witness :
  (∃ p s2, genre_create_post "ab" "g9" none store0 = ([Resp.redirect p], s2)) ∧
  genre_update_post "g1" "ab" none store0 =
    ([Resp.renderGenreForm "Update Genre" (some ⟨"g1", "ab"⟩)
        [⟨"name", "Genre name must contain at least 3 characters"⟩]], store0) := by
  constructor
  · exact c8_genre_name_threshold_asymmetry.2.2.1 "ab" "g9" store0 (by decide)
  · have h := c8_genre_name_threshold_asymmetry.2.2.2 "g1" "ab" store0 (by decide)
    simpa using h

/-- C6: the raw genre field of a Book create/update POST is normalized to an
array before validation runs (absent becomes the empty array, a scalar a
one-element array, an array is unchanged); hence a Book update submission
omitting genre entirely yields a candidate whose genre list is the empty
array. -/
theorem c6_genre_field_normalized :
  (normalizeGenre RawGenre.absent = []) ∧
  (∀ s : String, normalizeGenre (RawGenre.scalar s) = [s]) ∧
  (∀ xs : List String, normalizeGenre (RawGenre.arr xs) = xs) ∧
  (∀ (pid : String) (f : BookForm), f.genre = RawGenre.absent →
     (bookUpdateCandidate pid f).genre = []) ∧
  (∀ (nid : String) (f : BookForm), f.genre = RawGenre.absent →
     (bookCreateCandidate nid f).genre = []) := by
  refine ⟨rfl, fun s => rfl, fun xs => rfl, ?_, ?_⟩
  · intro pid f h
    simp [bookUpdateCandidate, validateBookFields, h, normalizeGenre]
  · intro nid f h
    simp [bookCreateCandidate, validateBookFields, h, normalizeGenre]

/-- c6 witness: a concrete update submission with genre omitted yields the
empty genre list on the candidate. -/
theorem c6_witness :
    (bookUpdateCandidate "b1" ⟨"T", "a1", "S", "I", RawGenre.absent⟩).genre = [] :=
  c6_genre_field_normalized.2.2.2.1 "b1" ⟨"T", "a1", "S", "I", RawGenre.absent⟩ rfl

theorem isEmpty_false_of_ne_nil {α : Type} {l : List α} (h : l ≠ []) :
    l.isEmpty = false := by
  cases l with
  | nil => exact absurd rfl h
  | cons a l => rfl

theorem escapeHtml_empty : escapeHtml "" = "" := rfl

theorem isAlphanumericStr_empty : isAlphanumericStr "" = false := rfl

theorem validateNameField_trim_empty (field m1 m2 v : String)
    (h : trimStr v = "") :
    (validateNameField field m1 m2 v).2 = [⟨field, m1⟩, ⟨field, m2⟩] := by
  have hlen : ¬ (1 ≤ ("" : String).length) := by decide
  simp [validateNameField, h, hlen, escapeHtml_empty, isAlphanumericStr_empty]

theorem author_first_name_errors_of_trim_empty (f : AuthorForm)
    (h : trimStr f.first_name = "") :
    ∃ rest, (validateAuthorForm f).2 =
      FieldError.mk "first_name" "First name must be specified." ::
      FieldError.mk "first_name" "First name has non-alphanumeric characters." ::
      rest := by
  refine ⟨(validateNameField "family_name" "Family name must be specified."
      "Family name has non-alphanumeric characters." f.family_name).2 ++
    ((validateOptionalDate "date_of_birth" "Invalid date of birth"
        f.date_of_birth).2 ++
     (validateOptionalDate "date_of_death" "Invalid date of death"
        f.date_of_death).2), ?_⟩
  simp [validateAuthorForm, validateNameField_trim_empty _ _ _ _ h]

/-- C5: on every create or update POST whose validation produces a
non-empty error list, no document is persisted — the resulting store equals
the incoming store — and the response re-renders the form with the
sanitized candidate values and the ordered error list (for the four POSTs
whose failure path re-fetches auxiliary lists the re-render is stated with
those reads succeeding, while no-persistence holds regardless of store
failures); in particular every Author create whose first name trims to the
empty string carries an error tagged "first_name" and persists nothing. -/
theorem c5_validation_failure_persists_nothing :
  (∀ (f : AuthorForm) (nid : String) (dbErr : Option Err) (s : Store),
     (validateAuthorForm f).2 ≠ [] →
       author_create_post f nid dbErr s =
         ([Resp.renderAuthorForm "Create Author" (some (authorCreateBody f))
             ((validateAuthorForm f).2)], s)) ∧
  (∀ (pid : String) (f : AuthorForm) (dbErr : Option Err) (s : Store),
     (validateAuthorForm f).2 ≠ [] →
       author_update_post pid f dbErr s =
         ([Resp.renderAuthorForm "Update Author"
             (some ⟨(authorUpdateCandidate pid f).first_name,
                    (authorUpdateCandidate pid f).family_name,
                    (authorUpdateCandidate pid f).date_of_birth,
                    (authorUpdateCandidate pid f).date_of_death, some pid⟩)
             ((validateAuthorForm f).2)], s)) ∧
  (∀ (v nid : String) (dbErr : Option Err) (s : Store),
     (validateGenreName 1 "Genre name required" v).2 ≠ [] →
       genre_create_post v nid dbErr s =
         ([Resp.renderGenreForm "Create Genre"
             (some ⟨nid, (validateGenreName 1 "Genre name required" v).1⟩)
             ((validateGenreName 1 "Genre name required" v).2)], s)) ∧
  (∀ (pid v : String) (dbErr : Option Err) (s : Store),
     (validateGenreName 3 "Genre name must contain at least 3 characters" v).2
         ≠ [] →
       genre_update_post pid v dbErr s =
         ([Resp.renderGenreForm "Update Genre"
             (some ⟨pid,
               (validateGenreName 3 "Genre name must contain at least 3 characters"
                 v).1⟩)
             ((validateGenreName 3 "Genre name must contain at least 3 characters"
                 v).2)], s)) ∧
  (∀ (f : BookForm) (nid : String) (s : Store),
     (validateBookFields f).2 ≠ [] →
       book_create_post f nid none s =
         ([Resp.renderBookForm "Create Book" s.authors
             (markChecked s.genres (bookCreateCandidate nid f).genre)
             (some ⟨(bookCreateCandidate nid f).title,
                    (bookCreateCandidate nid f).author,
                    (bookCreateCandidate nid f).summary,
                    (bookCreateCandidate nid f).isbn,
                    (bookCreateCandidate nid f).genre, some nid⟩)
             ((validateBookFields f).2)], s)) ∧
  (∀ (f : BookForm) (nid : String) (dbErr : Option Err) (s : Store),
     (validateBookFields f).2 ≠ [] → (book_create_post f nid dbErr s).2 = s) ∧
  (∀ (pid : String) (f : BookForm) (s : Store),
     (validateBookFields f).2 ≠ [] →
       book_update_post pid f none s =
         ([Resp.renderBookForm "Update Book" s.authors
             (markChecked s.genres (bookUpdateCandidate pid f).genre)
             (some ⟨(bookUpdateCandidate pid f).title,
                    (bookUpdateCandidate pid f).author,
                    (bookUpdateCandidate pid f).summary,
                    (bookUpdateCandidate pid f).isbn,
                    (bookUpdateCandidate pid f).genre, some pid⟩)
             ((validateBookFields f).2)], s)) ∧
  (∀ (pid : String) (f : BookForm) (dbErr : Option Err) (s : Store),
     (validateBookFields f).2 ≠ [] → (book_update_post pid f dbErr s).2 = s) ∧
  (∀ (f : BookInstanceForm) (nid : String) (s : Store),
     (validateBookInstanceForm f).2 ≠ [] →
       bookinstance_create_post f nid none s =
         ([Resp.renderBookInstanceForm "Create BookInstance" s.books
             (some (instanceCreateCandidate nid f).book)
             (some (instanceCreateCandidate nid f))
             ((validateBookInstanceForm f).2)], s)) ∧
  (∀ (f : BookInstanceForm) (nid : String) (dbErr : Option Err) (s : Store),
     (validateBookInstanceForm f).2 ≠ [] →
       (bookinstance_create_post f nid dbErr s).2 = s) ∧
  (∀ (pid : String) (f : BookInstanceForm) (s : Store),
     (validateBookInstanceForm f).2 ≠ [] →
       bookinstance_update_post pid f none s =
         ([Resp.renderBookInstanceForm "Update BookInstance" s.books
             (some (instanceUpdateCandidate pid f).book)
             (some (instanceUpdateCandidate pid f))
             ((validateBookInstanceForm f).2)], s)) ∧
  (∀ (pid : String) (f : BookInstanceForm) (dbErr : Option Err) (s : Store),
     (validateBookInstanceForm f).2 ≠ [] →
       (bookinstance_update_post pid f dbErr s).2 = s) ∧
  (∀ (f : AuthorForm) (nid : String) (dbErr : Option Err) (s : Store),
     trimStr f.first_name = "" →
       FieldError.mk "first_name" "First name must be specified."
           ∈ (validateAuthorForm f).2 ∧
       (author_create_post f nid dbErr s).2 = s) := by
  refine ⟨?_, ?_, ?_, ?_, ?_, ?_, ?_, ?_, ?_, ?_, ?_, ?_, ?_⟩
  · intro f nid dbErr s h
    simp [author_create_post, isEmpty_false_of_ne_nil h]
  · intro pid f dbErr s h
    simp [author_update_post, isEmpty_false_of_ne_nil h]
  · intro v nid dbErr s h
    simp [genre_create_post, isEmpty_false_of_ne_nil h]
  · intro pid v dbErr s h
    simp [genre_update_post, isEmpty_false_of_ne_nil h]
  · intro f nid s h
    simp [book_create_post, isEmpty_false_of_ne_nil h]
  · intro f nid dbErr s h
    cases dbErr <;> simp [book_create_post, isEmpty_false_of_ne_nil h]
  · intro pid f s h
    simp [book_update_post, isEmpty_false_of_ne_nil h]
  · intro pid f dbErr s h
    cases dbErr <;> simp [book_update_post, isEmpty_false_of_ne_nil h]
  · intro f nid s h
    simp [bookinstance_create_post, isEmpty_false_of_ne_nil h]
  · intro f nid dbErr s h
    cases dbErr <;> simp [bookinstance_create_post, isEmpty_false_of_ne_nil h]
  · intro pid f s h
    simp [bookinstance_update_post, isEmpty_false_of_ne_nil h]
  · intro pid f dbErr s h
    cases dbErr <;> simp [bookinstance_update_post, isEmpty_false_of_ne_nil h]
  · intro f nid dbErr s h
    obtain ⟨rest, hrest⟩ := author_first_name_errors_of_trim_empty f h
    constructor
    · rw [hrest]; exact List.mem_cons_self _ _
    · simp [author_create_post, hrest]

/-- c5 witness: the Author create with empty first name at a concrete store
re-renders the author form with the sanitized body and the ordered error
list (whose head is the error tagged first_name) and leaves the store
unchanged. -/
theorem c5_witness :
    (validateAuthorForm ⟨"", "Doe", none, none⟩).2 =
      [⟨"first_name", "First name must be specified."⟩,
       ⟨"first_name", "First name has non-alphanumeric characters."⟩] ∧
    author_create_post ⟨"", "Doe", none, none⟩ "a9" none store0 =
      ([Resp.renderAuthorForm "Create Author"
          (some (authorCreateBody ⟨"", "Doe", none, none⟩))
          ((validateAuthorForm ⟨"", "Doe", none, none⟩).2)], store0) :=
  ⟨by decide,
   c5_validation_failure_persists_nothing.1 ⟨"", "Doe", none, none⟩ "a9" none
     store0 (by decide)⟩

/-- C7: on a Genre create POST with a valid (trimmed length ≥ 1) name, the
handler first looks the (sanitized) name up: if a Genre with that name
exists it redirects to the existing genre's detail URL without inserting
anything (the store is unchanged); otherwise the new Genre is appended to
the store and the response redirects to its detail URL.  The check is a
non-atomic lookup-before-insert over the store passed to this one request. -/
theorem c7_genre_create_lookup_before_insert :
  ∀ (v nid : String) (s : Store), 1 ≤ (trimStr v).length →
    (∀ g, findGenreByName s (escapeHtml (trimStr v)) = some g →
       genre_create_post v nid none s = ([Resp.redirect g.url], s)) ∧
    (findGenreByName s (escapeHtml (trimStr v)) = none →
       genre_create_post v nid none s =
         ([Resp.redirect (Genre.url ⟨nid, escapeHtml (trimStr v)⟩)],
          { s with genres := s.genres ++ [⟨nid, escapeHtml (trimStr v)⟩] })) := by
  intro v nid s h
  constructor
  · intro g hg
    simp [genre_create_post, validateGenreName, h, hg]
  · intro hn
    simp [genre_create_post, validateGenreName, h, hn]

/-- c7 witness: with genre g1 named Fantasy in the store, creating
"Fantasy" again redirects to g1's detail URL and inserts nothing, while
creating "Horror" appends a new genre and redirects to its URL. -/
theorem c7_witness :
    (1 ≤ (trimStr "Fantasy").length ∧
      genre_create_post "Fantasy" "g9" none ⟨[], [], [⟨"g1", "Fantasy"⟩], []⟩ =
        ([Resp.redirect (Genre.url ⟨"g1", "Fantasy"⟩)],
         ⟨[], [], [⟨"g1", "Fantasy"⟩], []⟩)) ∧
    genre_create_post "Horror" "g9" none ⟨[], [], [⟨"g1", "Fantasy"⟩], []⟩ =
      ([Resp.redirect (Genre.url ⟨"g9", "Horror"⟩)],
       ⟨[], [], [⟨"g1", "Fantasy"⟩, ⟨"g9", "Horror"⟩], []⟩) := by
  constructor
  · refine ⟨by decide, ?_⟩
    have h := (c7_genre_create_lookup_before_insert "Fantasy" "g9"
      ⟨[], [], [⟨"g1", "Fantasy"⟩], []⟩ (by decide)).1 ⟨"g1", "Fantasy"⟩ (by decide)
    simpa using h
  · have h := (c7_genre_create_lookup_before_insert "Horror" "g9"
      ⟨[], [], [⟨"g1", "Fantasy"⟩], []⟩ (by decide)).2 (by decide)
    simpa using h

/-- C3: on every delete-GET for an Author, Genre, or Book, if the target id
does not resolve, the committed (first) response is a redirect to the
entity's list view — the handler's missing `return` still attempts the
confirmation render afterwards, but Express has already sent the redirect —
and otherwise, and only otherwise, the sole response is the rendered
confirmation view showing the target and its dependents. -/
theorem c3_delete_get_redirect_or_confirmation :
  (∀ (pid : String) (s : Store), findAuthorById s pid = none →
     (author_delete_get pid none s).head? =
       some (Resp.redirect "/catalog/authors")) ∧
  (∀ (pid : String) (s : Store) (a : Author), findAuthorById s pid = some a →
     author_delete_get pid none s =
       [Resp.renderAuthorDelete "Delete Author" (some a) (booksByAuthor s pid)]) ∧
  (∀ (pid : String) (s : Store), findGenreById s pid = none →
     (genre_delete_get pid none s).head? =
       some (Resp.redirect "/catalog/genres")) ∧
  (∀ (pid : String) (s : Store) (g : Genre), findGenreById s pid = some g →
     genre_delete_get pid none s =
       [Resp.renderGenreDelete "Delete Genre" (some g) (booksByGenre s pid)]) ∧
  (∀ (pid : String) (s : Store), findBookById s pid = none →
     (book_delete_get pid none s).head? =
       some (Resp.redirect "/catalog/books")) ∧
  (∀ (pid : String) (s : Store) (b : Book), findBookById s pid = some b →
     book_delete_get pid none s =
       [Resp.renderBookDelete "Delete Book" (some b) (instancesByBook s pid)]) := by
  refine ⟨?_, ?_, ?_, ?_, ?_, ?_⟩
  · intro pid s h; simp [author_delete_get, h]
  · intro pid s a h; simp [author_delete_get, h]
  · intro pid s h; simp [genre_delete_get, h]
  · intro pid s g h; simp [genre_delete_get, h]
  · intro pid s h; simp [book_delete_get, h]
  · intro pid s b h; simp [book_delete_get, h]

/-- c3 witness: on the empty store a delete-GET for a missing author
commits the redirect to the author list; with the author present, the
confirmation view is the sole response. -/
theorem c3_witness :
    (author_delete_get "a1" none store0).head? =
      some (Resp.redirect "/catalog/authors") ∧
    author_delete_get "a1" none ⟨[⟨"a1", "J", "D", none, none⟩], [], [], []⟩ =
      [Resp.renderAuthorDelete "Delete Author" (some ⟨"a1", "J", "D", none, none⟩)
        (booksByAuthor ⟨[⟨"a1", "J", "D", none, none⟩], [], [], []⟩ "a1")] :=
  ⟨c3_delete_get_redirect_or_confirmation.1 "a1" store0 (by decide),
   c3_delete_get_redirect_or_confirmation.2.1 "a1"
     ⟨[⟨"a1", "J", "D", none, none⟩], [], [], []⟩ ⟨"a1", "J", "D", none, none⟩
     (by decide)⟩

/-- C1: on every delete-POST for an Author, Genre, or Book (the genre form
posts the same id in the body as in the URL, so both ids coincide): if the
re-resolved dependent set (Books for an Author/Genre, BookInstances for a
Book) is non-empty, the target is not removed — the handler re-renders the
delete-confirmation view showing the blocking dependents, the store is
unchanged, and the target still resolves; if and only if the dependent set
is empty, the target is removed from the store and the response is a
redirect to the entity's list view. -/
theorem c1_delete_post_referential_guard :
  (∀ (s : Store) (aid : String) (a : Author), findAuthorById s aid = some a →
     booksByAuthor s aid ≠ [] →
       author_delete_post aid none s =
         ([Resp.renderAuthorDelete "Delete Author" (some a) (booksByAuthor s aid)],
          s) ∧
       findAuthorById (author_delete_post aid none s).2 aid = some a) ∧
  (∀ (s : Store) (aid : String), booksByAuthor s aid = [] →
     author_delete_post aid none s =
       ([Resp.redirect "/catalog/authors"], removeAuthor s aid) ∧
     findAuthorById (removeAuthor s aid) aid = none) ∧
  (∀ (s : Store) (gid : String) (g : Genre), findGenreById s gid = some g →
     booksByGenre s gid ≠ [] →
       genre_delete_post gid gid none s =
         ([Resp.renderGenreDelete "Delete Genre" (some g) (booksByGenre s gid)],
          s) ∧
       findGenreById (genre_delete_post gid gid none s).2 gid = some g) ∧
  (∀ (s : Store) (gid : String), booksByGenre s gid = [] →
     genre_delete_post gid gid none s =
       ([Resp.redirect "/catalog/genres"], removeGenre s gid) ∧
     findGenreById (removeGenre s gid) gid = none) ∧
  (∀ (s : Store) (bid : String) (b : Book), findBookById s bid = some b →
     instancesByBook s bid ≠ [] →
       book_delete_post bid none s =
         ([Resp.renderBookDelete "Delete Book" (some b) (instancesByBook s bid)],
          s) ∧
       findBookById (book_delete_post bid none s).2 bid = some b) ∧
  (∀ (s : Store) (bid : String), instancesByBook s bid = [] →
     book_delete_post bid none s =
       ([Resp.redirect "/catalog/books"], removeBook s bid) ∧
     findBookById (removeBook s bid) bid = none) := by
  refine ⟨?_, ?_, ?_, ?_, ?_, ?_⟩
  · intro s aid a hfind hne
    have hl : 0 < (booksByAuthor s aid).length := List.length_pos.mpr hne
    constructor
    · simp [author_delete_post, hl, hfind]
    · simp [author_delete_post, hl, hfind]
  · intro s aid h
    constructor
    · simp [author_delete_post, h]
    · exact find?_eq_none_after_remove (fun x : Author => x.id) aid s.authors
  · intro s gid g hfind hne
    have hl : 0 < (booksByGenre s gid).length := List.length_pos.mpr hne
    constructor
    · simp [genre_delete_post, hl, hfind]
    · simp [genre_delete_post, hl, hfind]
  · intro s gid h
    constructor
    · simp [genre_delete_post, h]
    · exact find?_eq_none_after_remove (fun x : Genre => x.id) gid s.genres
  · intro s bid b hfind hne
    have hl : 0 < (instancesByBook s bid).length := List.length_pos.mpr hne
    constructor
    · simp [book_delete_post, hl, hfind]
    · simp [book_delete_post, hl, hfind]
  · intro s bid h
    constructor
    · simp [book_delete_post, h]
    · exact find?_eq_none_after_remove (fun x : Book => x.id) bid s.books

/-- c1 witness: with one book referencing author a1, the delete-POST
re-renders the confirmation view with the blocking book and a1 still
resolves; on a store without dependents the author is removed and the
response redirects to the list. -/
theorem c1_witness :
    (author_delete_post "a1" none
        ⟨[⟨"a1", "J", "D", none, none⟩], [⟨"b1", "T", "a1", "S", "I", []⟩], [], []⟩ =
      ([Resp.renderAuthorDelete "Delete Author" (some ⟨"a1", "J", "D", none, none⟩)
          (booksByAuthor
            ⟨[⟨"a1", "J", "D", none, none⟩], [⟨"b1", "T", "a1", "S", "I", []⟩], [], []⟩
            "a1")],
       ⟨[⟨"a1", "J", "D", none, none⟩], [⟨"b1", "T", "a1", "S", "I", []⟩], [], []⟩)) ∧
    author_delete_post "a1" none ⟨[⟨"a1", "J", "D", none, none⟩], [], [], []⟩ =
      ([Resp.redirect "/catalog/authors"],
       removeAuthor ⟨[⟨"a1", "J", "D", none, none⟩], [], [], []⟩ "a1") :=
  ⟨(c1_delete_post_referential_guard.1
      ⟨[⟨"a1", "J", "D", none, none⟩], [⟨"b1", "T", "a1", "S", "I", []⟩], [], []⟩
      "a1" ⟨"a1", "J", "D", none, none⟩ (by decide) (by decide)).1,
   (c1_delete_post_referential_guard.2.1
      ⟨[⟨"a1", "J", "D", none, none⟩], [], [], []⟩ "a1" (by decide)).1⟩

/-- Concrete fixtures for the book-update scenario: author a1, genre g1,
and book b1 referencing both. -/
def c2Author : Author := ⟨"a1", "John", "Doe", none, none⟩

def c2Genre : Genre := ⟨"g1", "Fantasy"⟩

def c2Book : Book := ⟨"b1", "Old", "a1", "OS", "123", ["g1"]⟩

def c2Store : Store := ⟨[c2Author], [c2Book], [c2Genre], []⟩

def c2Form : BookForm := ⟨"", "a1", "S", "I", RawGenre.arr ["g1"]⟩

/-- C2: on every Book create or update POST that fails validation, the
handler re-fetches all Genres and re-renders the form with each fetched
Genre paired with a checked flag that is set exactly when its identifier
appears in the sanitized candidate's genre list; in particular the update
POST with title "", author "a1", summary "S", isbn "I", genre ["g1"]
re-renders the book form with the single error tagged "title" reading
"Title must not be empty.", the candidate (whose author "a1" pre-selects
the dropdown), and genre g1 marked checked. -/
theorem c2_book_form_rerender_checked_genres :
  (∀ (f : BookForm) (nid : String) (s : Store), (validateBookFields f).2 ≠ [] →
     book_create_post f nid none s =
       ([Resp.renderBookForm "Create Book" s.authors
           (markChecked s.genres (bookCreateCandidate nid f).genre)
           (some ⟨(bookCreateCandidate nid f).title, (bookCreateCandidate nid f).author,
                  (bookCreateCandidate nid f).summary, (bookCreateCandidate nid f).isbn,
                  (bookCreateCandidate nid f).genre, some nid⟩)
           ((validateBookFields f).2)], s) ∧
     ∀ gb ∈ markChecked s.genres (bookCreateCandidate nid f).genre,
       (gb.2 = true ↔ gb.1.id ∈ (bookCreateCandidate nid f).genre)) ∧
  (∀ (pid : String) (f : BookForm) (s : Store), (validateBookFields f).2 ≠ [] →
     book_update_post pid f none s =
       ([Resp.renderBookForm "Update Book" s.authors
           (markChecked s.genres (bookUpdateCandidate pid f).genre)
           (some ⟨(bookUpdateCandidate pid f).title, (bookUpdateCandidate pid f).author,
                  (bookUpdateCandidate pid f).summary, (bookUpdateCandidate pid f).isbn,
                  (bookUpdateCandidate pid f).genre, some pid⟩)
           ((validateBookFields f).2)], s) ∧
     ∀ gb ∈ markChecked s.genres (bookUpdateCandidate pid f).genre,
       (gb.2 = true ↔ gb.1.id ∈ (bookUpdateCandidate pid f).genre)) ∧
  (book_update_post "b1" c2Form none c2Store =
     ([Resp.renderBookForm "Update Book" [c2Author] [(c2Genre, true)]
         (some ⟨"", "a1", "S", "I", ["g1"], some "b1"⟩)
         [⟨"title", "Title must not be empty."⟩]], c2Store)) := by
  refine ⟨?_, ?_, by decide⟩
  · intro f nid s h
    constructor
    · simp [book_create_post, isEmpty_false_of_ne_nil h]
    · intro gb hgb
      simp only [markChecked, List.mem_map] at hgb
      obtain ⟨g, hg, rfl⟩ := hgb
      simp
  · intro pid f s h
    constructor
    · simp [book_update_post, isEmpty_false_of_ne_nil h]
    · intro gb hgb
      simp only [markChecked, List.mem_map] at hgb
      obtain ⟨g, hg, rfl⟩ := hgb
      simp

/-- c2 witness: the general create-path statement instantiated at the
scenario form on the scenario store. -/
theorem c2_witness :
    (validateBookFields c2Form).2 ≠ [] ∧
    book_create_post c2Form "b9" none c2Store =
      ([Resp.renderBookForm "Create Book" [c2Author]
          (markChecked [c2Genre] (bookCreateCandidate "b9" c2Form).genre)
          (some ⟨(bookCreateCandidate "b9" c2Form).title,
                 (bookCreateCandidate "b9" c2Form).author,
                 (bookCreateCandidate "b9" c2Form).summary,
                 (bookCreateCandidate "b9" c2Form).isbn,
                 (bookCreateCandidate "b9" c2Form).genre, some "b9"⟩)
          ((validateBookFields c2Form).2)], c2Store) :=
  ⟨by decide,
   (c2_book_form_rerender_checked_genres.1 c2Form "b9" c2Store (by decide)).1⟩

/-- C9: on every successful update POST for Author, Book, or BookInstance
(validation passed and the URL id resolves), the candidate written to the
store carries the identifier from the request URL parameter, the update
replaces the existing document in place — the list of stored identifiers is
unchanged, so no new identifier is allocated, and the candidate is found
under the URL id afterwards — and the redirect targets the same entity's
canonical detail URL. -/
theorem c9_update_post_in_place :
  (∀ (pid : String) (f : AuthorForm) (s : Store) (a : Author),
     (validateAuthorForm f).2 = [] → findAuthorById s pid = some a →
       (authorUpdateCandidate pid f).id = pid ∧
       (author_update_post pid f none s).1 =
         [Resp.redirect ("/catalog/author/" ++ pid)] ∧
       findAuthorById (author_update_post pid f none s).2 pid =
         some (authorUpdateCandidate pid f) ∧
       (author_update_post pid f none s).2.authors.map Author.id =
         s.authors.map Author.id) ∧
  (∀ (pid : String) (f : BookForm) (s : Store) (b : Book),
     (validateBookFields f).2 = [] → findBookById s pid = some b →
       (bookUpdateCandidate pid f).id = pid ∧
       (book_update_post pid f none s).1 =
         [Resp.redirect ("/catalog/book/" ++ pid)] ∧
       findBookById (book_update_post pid f none s).2 pid =
         some (bookUpdateCandidate pid f) ∧
       (book_update_post pid f none s).2.books.map Book.id =
         s.books.map Book.id) ∧
  (∀ (pid : String) (f : BookInstanceForm) (s : Store) (b : BookInstance),
     (validateBookInstanceForm f).2 = [] → findInstanceById s pid = some b →
       (instanceUpdateCandidate pid f).id = pid ∧
       (bookinstance_update_post pid f none s).1 =
         [Resp.redirect ("/catalog/bookinstance/" ++ pid)] ∧
       findInstanceById (bookinstance_update_post pid f none s).2 pid =
         some (instanceUpdateCandidate pid f) ∧
       (bookinstance_update_post pid f none s).2.instances.map BookInstance.id =
         s.instances.map BookInstance.id) := by
  refine ⟨?_, ?_, ?_⟩
  · intro pid f s a hE hfind
    have hfind' : s.authors.find? (fun x => x.id == pid) = some a := hfind
    have ha' := List.find?_some hfind'
    have ha : a.id = pid := by simpa using ha' 
    have h1 : (author_update_post pid f none s).1 = [Resp.redirect a.url] := by
      simp [author_update_post, updateAuthorById, hE, hfind']
    have h3 : (author_update_post pid f none s).2 =
        { s with authors :=
            s.authors.map (fun x => if x.id == pid then authorUpdateCandidate pid f else x) } := by
      simp [author_update_post, updateAuthorById, hE, hfind']
    refine ⟨rfl, ?_, ?_, ?_⟩
    · rw [h1]; simp [Author.url, ha]
    · rw [h3]
      exact find?_after_replace (fun x : Author => x.id) pid _
        (by simp [authorUpdateCandidate]) s.authors a hfind'
    · rw [h3]
      exact map_replace_preserves_ids (fun x : Author => x.id) pid _ rfl s.authors
  · intro pid f s b hE hfind
    have hfind' : s.books.find? (fun x => x.id == pid) = some b := hfind
    have hb' := List.find?_some hfind'
    have hb : b.id = pid := by simpa using hb'
    have h1 : (book_update_post pid f none s).1 = [Resp.redirect b.url] := by
      simp [book_update_post, updateBookById, hE, hfind']
    have h3 : (book_update_post pid f none s).2 =
        { s with books :=
            s.books.map (fun x => if x.id == pid then bookUpdateCandidate pid f else x) } := by
      simp [book_update_post, updateBookById, hE, hfind']
    refine ⟨rfl, ?_, ?_, ?_⟩
    · rw [h1]; simp [Book.url, hb]
    · rw [h3]
      exact find?_after_replace (fun x : Book => x.id) pid _
        (by simp [bookUpdateCandidate]) s.books b hfind'
    · rw [h3]
      exact map_replace_preserves_ids (fun x : Book => x.id) pid _ rfl s.books
  · intro pid f s b hE hfind
    have hfind' : s.instances.find? (fun x => x.id == pid) = some b := hfind
    have hb' := List.find?_some hfind'
    have hb : b.id = pid := by simpa using hb'
    have h1 : (bookinstance_update_post pid f none s).1 =
        [Resp.redirect b.url] := by
      simp [bookinstance_update_post, updateInstanceById, hE, hfind']
    have h3 : (bookinstance_update_post pid f none s).2 =
        { s with instances :=
            s.instances.map (fun x => if x.id == pid then instanceUpdateCandidate pid f else x) } := by
      simp [bookinstance_update_post, updateInstanceById, hE, hfind']
    refine ⟨rfl, ?_, ?_, ?_⟩
    · rw [h1]; simp [BookInstance.url, hb]
    · rw [h3]
      exact find?_after_replace (fun x : BookInstance => x.id) pid _
        (by simp [instanceUpdateCandidate]) s.instances b hfind'
    · rw [h3]
      exact map_replace_preserves_ids (fun x : BookInstance => x.id) pid _ rfl
        s.instances

/-- c9 witness: a concrete valid author update at a1 redirects to a1's
canonical detail URL. -/
theorem c9_witness :
    (validateAuthorForm ⟨"Jane", "Roe", none, none⟩).2 = [] ∧
    (author_update_post "a1" ⟨"Jane", "Roe", none, none⟩ none
        ⟨[⟨"a1", "J", "D", none, none⟩], [], [], []⟩).1 =
      [Resp.redirect "/catalog/author/a1"] :=
  ⟨by decide,
   (c9_update_post_in_place.1 "a1" ⟨"Jane", "Roe", none, none⟩
      ⟨[⟨"a1", "J", "D", none, none⟩], [], [], []⟩ ⟨"a1", "J", "D", none, none⟩
      (by decide) (by decide)).2.1⟩

/-- c4 counterexample: the home-page (index) handler handles a store
failure locally — at a concrete failing store read its sole committed
response is a render of the index view carrying the error as a template
variable (a `renderIndex`, not a `nextErr` forward to the process-wide
error boundary), refuting the claim's quantification over every request
handler. -/
theorem c4_counterexample_index_not_forwarded :
    index (some err0) store0 =
      [Resp.renderIndex "Local Library Home" (some err0) none] := rfl

/-- C4 (amended): every embedded request handler except the index handler
and `book_list` forwards a store failure to the process-wide error
boundary as its sole response, leaving the store unchanged (the create and
update POSTs of Author and Genre touch the store only after validation
passes, so their forwarding is stated under passed validation; the Book and
BookInstance POSTs hit the store on both branches); `book_list`'s error
branch references an undefined `next` and throws instead; the boundary
renders with the error's status code when present and 500 otherwise, and
exposes the error object only in development mode. -/
theorem c4_store_failure_forwarded_except_index_and_book_list :
  (∀ (e : Err) (f : AuthorForm) (nid : String) (s : Store),
     (validateAuthorForm f).2 = [] →
       author_create_post f nid (some e) s = ([Resp.nextErr e], s)) ∧
  (∀ (e : Err) (pid : String) (f : AuthorForm) (s : Store),
     (validateAuthorForm f).2 = [] →
       author_update_post pid f (some e) s = ([Resp.nextErr e], s)) ∧
  (∀ (e : Err) (v nid : String) (s : Store),
     (validateGenreName 1 "Genre name required" v).2 = [] →
       genre_create_post v nid (some e) s = ([Resp.nextErr e], s)) ∧
  (∀ (e : Err) (pid v : String) (s : Store),
     (validateGenreName 3 "Genre name must contain at least 3 characters" v).2 = [] →
       genre_update_post pid v (some e) s = ([Resp.nextErr e], s)) ∧
  (∀ (e : Err) (pid : String) (s : Store),
     author_delete_get pid (some e) s = [Resp.nextErr e]) ∧
  (∀ (e : Err) (aid : String) (s : Store),
     author_delete_post aid (some e) s = ([Resp.nextErr e], s)) ∧
  (∀ (e : Err) (pid : String) (s : Store),
     genre_delete_get pid (some e) s = [Resp.nextErr e]) ∧
  (∀ (e : Err) (pid bid : String) (s : Store),
     genre_delete_post pid bid (some e) s = ([Resp.nextErr e], s)) ∧
  (∀ (e : Err) (pid : String) (s : Store),
     book_delete_get pid (some e) s = [Resp.nextErr e]) ∧
  (∀ (e : Err) (bid : String) (s : Store),
     book_delete_post bid (some e) s = ([Resp.nextErr e], s)) ∧
  (∀ (e : Err) (f : BookForm) (nid : String) (s : Store),
     book_create_post f nid (some e) s = ([Resp.nextErr e], s)) ∧
  (∀ (e : Err) (pid : String) (f : BookForm) (s : Store),
     book_update_post pid f (some e) s = ([Resp.nextErr e], s)) ∧
  (∀ (e : Err) (f : BookInstanceForm) (nid : String) (s : Store),
     bookinstance_create_post f nid (some e) s = ([Resp.nextErr e], s)) ∧
  (∀ (e : Err) (pid : String) (f : BookInstanceForm) (s : Store),
     bookinstance_update_post pid f (some e) s = ([Resp.nextErr e], s)) ∧
  (∀ (e : Err) (bid : String) (s : Store),
     bookinstance_delete_post bid (some e) s = ([Resp.nextErr e], s)) ∧
  (∀ (e : Err) (s : Store),
     book_list (some e) s = [Resp.thrown "ReferenceError: next is not defined"]) ∧
  (∀ (env : String) (e : Err) (c : Nat), e.status = some c →
     (errorBoundary env e).status = c) ∧
  (∀ (env : String) (e : Err), e.status = none →
     (errorBoundary env e).status = 500) ∧
  (∀ (env : String) (e : Err),
     (errorBoundary env e).errorExposed = (env == "development")) := by
  refine ⟨?_, ?_, ?_, ?_, fun e pid s => rfl, fun e aid s => rfl,
    fun e pid s => rfl, fun e pid bid s => rfl, fun e pid s => rfl,
    fun e bid s => rfl, ?_, ?_, ?_, ?_, fun e bid s => rfl, fun e s => rfl,
    ?_, ?_, fun env e => rfl⟩
  · intro e f nid s hE; simp [author_create_post, hE]
  · intro e pid f s hE; simp [author_update_post, hE]
  · intro e v nid s hE; simp [genre_create_post, hE]
  · intro e pid v s hE; simp [genre_update_post, hE]
  · intro e f nid s
    cases hE : (validateBookFields f).2.isEmpty <;> simp [book_create_post, hE]
  · intro e pid f s
    cases hE : (validateBookFields f).2.isEmpty <;> simp [book_update_post, hE]
  · intro e f nid s
    cases hE : (validateBookInstanceForm f).2.isEmpty <;>
      simp [bookinstance_create_post, hE]
  · intro e pid f s
    cases hE : (validateBookInstanceForm f).2.isEmpty <;>
      simp [bookinstance_update_post, hE]
  · intro env e c h; simp [errorBoundary, h]
  · intro env e h; simp [errorBoundary, h]

/-- c4 witness: a valid author create at a concrete failing save forwards
the error to the boundary, and the boundary defaults the status to 500 for
err0 (which carries no status) while withholding the error outside
development. -/
theorem c4_witness :
    (validateAuthorForm ⟨"John", "Doe", none, none⟩).2 = [] ∧
    author_create_post ⟨"John", "Doe", none, none⟩ "a9" (some err0) store0 =
      ([Resp.nextErr err0], store0) ∧
    (errorBoundary "production" err0).status = 500 :=
  ⟨by decide,
   c4_store_failure_forwarded_except_index_and_book_list.1 err0
     ⟨"John", "Doe", none, none⟩ "a9" store0 (by decide),
   c4_store_failure_forwarded_except_index_and_book_list.2.2.2.2.2.2.2.2.2.2.2.2.2.2.2.2.2.1
     "production" err0 rfl⟩
